import Mathlib

/-!
Shallow embedding of two source files of the repository:
  - packages/webpack-config/webpack/webpack.common.js
      (configuration builder `module.exports`, `getDevtool`, and the
       compiler wrapper `createWebpackCompiler` with its `invalid` and
       `done` event handlers),
  - scripts/generateChangelog.js.

JavaScript values that matter to the claims (truthiness, `undefined`,
strings, booleans) are modelled by the inductive `JSValue`.  Side effects
(console logging, `process.exit`, spawning a child process, invoking the
`onFinished` callback) are modelled as explicit event traces.  Terminal
colouring by the external `chalk` library is presentation-only and is
elided (chalk calls are treated as the identity on strings).
-/

namespace Spec2Proof

/-- A JavaScript value, restricted to the shapes the embedded code
distinguishes.  `obj` stands for any object (always truthy); the `Nat`
tag only keeps distinct objects distinct. -/
inductive JSValue where
  | undefined
  | null
  | bool (b : Bool)
  | num (n : Int)
  | str (s : String)
  | obj (id : Nat)
deriving DecidableEq

/-- JavaScript truthiness of a `JSValue` (NaN is not modelled; no claim
involves it). -/
def truthy : JSValue → Bool
  | JSValue.undefined => false
  | JSValue.null => false
  | JSValue.bool b => b
  | JSValue.num n => n != 0
  | JSValue.str s => s != ""
  | JSValue.obj _ => true

/-- JavaScript `a || b`: the left operand when truthy, otherwise the right. -/
def jsOr (a b : JSValue) : JSValue := if truthy a then a else b

/-- JavaScript string interpolation of a value. -/
def jsToString : JSValue → String
  | JSValue.undefined => "undefined"
  | JSValue.null => "null"
  | JSValue.bool true => "true"
  | JSValue.bool false => "false"
  | JSValue.num n => toString n
  | JSValue.str s => s
  | JSValue.obj _ => "[object Object]"

/-- JavaScript property access on a possibly absent key: an absent key
reads as `undefined`. -/
def jsField (o : Option JSValue) : JSValue := o.getD JSValue.undefined

/-! ## webpack.common.js: getDevtool and the configuration builder -/

/-- The fields of `env` that the embedded code reads. -/
structure Env where
  production : JSValue
  development : JSValue
deriving DecidableEq

/-- The fields of `config.web` that the embedded code reads. -/
structure WebConfig where
  devtool : JSValue
  serviceWorker : JSValue
deriving DecidableEq

/-- webpack.common.js lines 65-77: `getDevtool(env, webConfig)`. -/
def getDevtool (env : Env) (webConfig : WebConfig) : JSValue :=
  if truthy env.production then
    if webConfig.devtool ≠ JSValue.undefined then webConfig.devtool
    else JSValue.str "source-map"
  else if truthy env.development then JSValue.str "cheap-module-source-map"
  else JSValue.undefined

/-- webpack.common.js line 18: `DEFAULT_SERVICE_WORKER = {}` (an object,
hence truthy). -/
def DEFAULT_SERVICE_WORKER : JSValue := JSValue.obj 0

/-- The report configuration object flowing into the report plugins
(webpack.common.js lines 154-187).  Each field is `none` when the key is
absent, `some v` when the key is present with value `v`; the distinction
matters because the `...reportConfig` spread copies present keys only. -/
structure ReportConfig where
  verbose : Option JSValue
  path : Option JSValue
  statsFilename : Option JSValue
  reportFilename : Option JSValue
deriving DecidableEq

/-- webpack.common.js lines 19-24: `DEFAULT_REPORT_CONFIG`. -/
def DEFAULT_REPORT_CONFIG : ReportConfig :=
  { verbose := some (JSValue.bool false)
    path := some (JSValue.str "web-report")
    statsFilename := some (JSValue.str "stats.json")
    reportFilename := some (JSValue.str "report.html") }

/-- The `locations` object produced by `webpackLocations` (outside the
given sources): only its `root` and the path-resolving `absolute`
function are read by the embedded code, so they are kept abstract. -/
structure Locations where
  root : String
  absolute : List JSValue → String

/-- A plugin instance in the produced configuration, tagged by its
constructor; only the arguments the claims mention are carried. -/
inductive Plugin where
  | createIndexHTMLFromAppJSON
  | interpolateHtml
  | define
  | deepScopeAnalysis
  | generateSW
  | pwaManifest
  | moduleNotFound
  | progressBar
  | cleanWebpack (paths : List String) (root : String) (verbose : JSValue)
  | bundleAnalyzer (statsFilename reportFilename logLevel : JSValue)
deriving DecidableEq

/-- webpack.common.js lines 111-152: the `middlewarePlugins` array.
`owpc` is the `overrideWithPropertyOrConfig` helper imported from
`utils/config` (that file is outside the given sources, so the helper is
kept abstract); the code applies it to
`env.production ? config.web.serviceWorker : false` and pushes
`WorkboxPlugin.GenerateSW` when the result is truthy. -/
def middlewarePlugins (owpc : JSValue → JSValue → JSValue)
    (env : Env) (web : WebConfig) : List Plugin :=
  ([Plugin.deepScopeAnalysis]
      ++ (if truthy (owpc
            (if truthy env.production then web.serviceWorker else JSValue.bool false)
            DEFAULT_SERVICE_WORKER) then
            [Plugin.generateSW]
          else []))
    ++ [Plugin.pwaManifest]

/-- webpack.common.js lines 162-187: the `reportPlugins` array.  `rcOpt`
is the result of `overrideWithPropertyOrConfig(config.web.report,
DEFAULT_REPORT_CONFIG)`: `none` models a falsy result, `some rc` a truthy
result with fields `rc`.  Note the `...reportConfig` spread in the
`BundleAnalyzerPlugin` options comes after the computed absolute
`statsFilename`/`reportFilename`, so a present key overrides them. -/
def reportPlugins (loc : Locations) (rcOpt : Option ReportConfig) : List Plugin :=
  match rcOpt with
  | none => []
  | some rc =>
    let reportDir := jsOr (jsField rc.path) (JSValue.str "web-report")
    let baseStats : JSValue :=
      JSValue.str (loc.absolute
        [reportDir, jsOr (jsField rc.statsFilename) (JSValue.str "stats.json")])
    let baseReport : JSValue :=
      JSValue.str (loc.absolute
        [reportDir, jsOr (jsField rc.reportFilename) (JSValue.str "report.html")])
    [Plugin.cleanWebpack [loc.absolute [reportDir]] loc.root (jsField rc.verbose),
     Plugin.bundleAnalyzer
       (rc.statsFilename.getD baseStats)
       (rc.reportFilename.getD baseReport)
       (if truthy (jsField rc.verbose) then JSValue.str "info"
        else JSValue.str "silent")]

/-- Whether a plugin is one of the two bundle-report plugins. -/
def isReportPlugin : Plugin → Bool
  | Plugin.cleanWebpack _ _ _ => true
  | Plugin.bundleAnalyzer _ _ _ => true
  | _ => false

/-- webpack.common.js lines 204-236: the `plugins` array of the returned
configuration, in source order. -/
def webpackPlugins (owpc : JSValue → JSValue → JSValue) (loc : Locations)
    (env : Env) (web : WebConfig) (rcOpt : Option ReportConfig) : List Plugin :=
  [Plugin.createIndexHTMLFromAppJSON, Plugin.interpolateHtml, Plugin.define]
    ++ middlewarePlugins owpc env web
    ++ [Plugin.moduleNotFound, Plugin.progressBar]
    ++ reportPlugins loc rcOpt

/-- The parts of the configuration object returned by `module.exports`
(webpack.common.js lines 191-295) that the claims mention. -/
structure WebpackConfigOut where
  bail : JSValue
  devtool : JSValue
  plugins : List Plugin

/-- webpack.common.js lines 79-295: the exported configuration builder,
restricted to the fields the claims are about. -/
def webpackCommonExport (owpc : JSValue → JSValue → JSValue) (loc : Locations)
    (env : Env) (web : WebConfig) (rcOpt : Option ReportConfig) : WebpackConfigOut :=
  { bail := env.production
    devtool := getDevtool env web
    plugins := webpackPlugins owpc loc env web rcOpt }

/-! ## createWebpackCompiler: event-trace semantics -/

/-- The payload handed to a logging call: a plain string, a raw list of
messages (the devSocket callbacks receive the whole array), or an
arbitrary JavaScript value (the startup catch logs `err.message || err`). -/
inductive OutMsg where
  | text (s : String)
  | list (ls : List String)
  | value (v : JSValue)
deriving DecidableEq

/-- One observable effect of the compiler wrapper. -/
inductive Event where
  | clearConsole
  | logInfo (m : OutMsg)
  | logWarning (m : OutMsg)
  | logError (m : OutMsg)
  | onFinished
  | processExit (code : Nat)
deriving DecidableEq

/-- The `urls` object from the dev-server utilities; only the two fields
the embedded code reads. -/
structure Urls where
  localUrlForTerminal : JSValue
  lanUrlForTerminal : JSValue
deriving DecidableEq

/-- The arguments of `createWebpackCompiler` that the handlers read
(`projectRoot` is only threaded into every log call and `useYarn` is
never read, so they are omitted from the trace model). -/
structure CompilerCtx where
  appName : String
  urls : Urls
  nonInteractive : JSValue
deriving DecidableEq

/-- Lines 321-338: `printInstructions`, as the list of logged lines
(chalk colouring elided). -/
def printInstructions (appName : String) (urls : Urls) : List Event :=
  [Event.logInfo (OutMsg.text " "),
   Event.logInfo (OutMsg.text ("You can now view " ++ appName ++ " in the browser.")),
   Event.logInfo (OutMsg.text " ")]
    ++ (if truthy urls.lanUrlForTerminal then
          [Event.logInfo (OutMsg.text
             ("  Local:            " ++ jsToString urls.localUrlForTerminal)),
           Event.logInfo (OutMsg.text
             ("  On Your Network:  " ++ jsToString urls.lanUrlForTerminal)),
           Event.logInfo (OutMsg.text " ")]
        else
          [Event.logInfo (OutMsg.text ("  " ++ jsToString urls.localUrlForTerminal))])
    ++ [Event.logInfo (OutMsg.text "Note that the development build is not optimized."),
        Event.logInfo (OutMsg.text "To create a production build, use expo build:web."),
        Event.logInfo (OutMsg.text " ")]

/-- Lines 340-347: `printPreviewNotice` (chalk colouring elided). -/
def printPreviewNotice : List Event :=
  [Event.logInfo (OutMsg.text " "),
   Event.logInfo (OutMsg.text
     "Web support in Expo is experimental and subject to breaking changes."),
   Event.logInfo (OutMsg.text "Do not use this in production yet.")]

/-- The error and warning lists of a compile, as produced by
`stats.toJson({ all: false, warnings: true, errors: true })`. -/
structure StatsData where
  errors : List String
  warnings : List String
deriving DecidableEq

/-- The output of `formatWebpackMessages` (an external react-dev-utils
function, kept abstract as a parameter of the handlers). -/
structure Messages where
  errors : List String
  warnings : List String
deriving DecidableEq

/-- Lines 403-407: `stats.toJson` restricted to the selected fields. -/
def statsToJson (stats : StatsData) : StatsData :=
  { errors := stats.errors, warnings := stats.warnings }

/-- A thrown JavaScript error: its `message` property and the whole
thrown value (`err.message || err` reads both). -/
structure JSError where
  message : JSValue
  asValue : JSValue
deriving DecidableEq

/-- Lines 366-376 of createWebpackCompiler: the try/catch around the
`webpack(config)` constructor call.  The argument is the outcome of that
call; on an exception the catch logs and exits with code 1, otherwise
the compiler is returned unchanged and nothing is logged. -/
def createWebpackCompilerStartup {α : Type} (r : Except JSError α) :
    List Event × Option α :=
  match r with
  | Except.ok c => ([], some c)
  | Except.error err =>
    ([Event.logError (OutMsg.text " "),
      Event.logError (OutMsg.text "Failed to compile"),
      Event.logError (OutMsg.text " "),
      Event.logError (OutMsg.value (jsOr err.message err.asValue)),
      Event.logError (OutMsg.text " "),
      Event.processExit 1], none)

/-- Lines 382-387: the `invalid` hook handler. -/
def invalidHandler (ctx : CompilerCtx) : List Event :=
  (if truthy ctx.nonInteractive then [] else [Event.clearConsole])
    ++ [Event.logInfo (OutMsg.text "\nCompiling...")]

/-- Lines 394-396 of the `done` handler: conditional console clear. -/
def preSection (ctx : CompilerCtx) : List Event :=
  if truthy ctx.nonInteractive then [] else [Event.clearConsole]

/-- Lines 411-415: the devSocket notification, which receives the raw
error list (or, when there are no errors, the raw warning list) and logs
it. -/
def devSocketSection (messages : Messages) : List Event :=
  if messages.errors.length > 0 then [Event.logError (OutMsg.list messages.errors)]
  else if messages.warnings.length > 0 then
    [Event.logWarning (OutMsg.list messages.warnings)]
  else []

/-- Lines 420-424: success message and preview notice on a compile with
neither errors nor warnings. -/
def successSection (messages : Messages) : List Event :=
  if messages.errors.isEmpty && messages.warnings.isEmpty then
    Event.logInfo (OutMsg.text "Compiled successfully!") :: printPreviewNotice
  else []

/-- Lines 425-427: the browser-URL instructions, printed on success when
interactive or on the first compile. -/
def instrSection (ctx : CompilerCtx) (isFirstCompile : Bool)
    (messages : Messages) : List Event :=
  if (messages.errors.isEmpty && messages.warnings.isEmpty)
      && (!truthy ctx.nonInteractive || isFirstCompile) then
    printInstructions ctx.appName ctx.urls
  else []

/-- Lines 431-459: the final error/warning summary.  With errors the
error list is truncated to its first element when longer, `Failed to
compile.` is logged and the handler returns, skipping warnings. -/
def tailSection (messages : Messages) : List Event :=
  if messages.errors.length ≠ 0 then
    let errs := if messages.errors.length > 1 then messages.errors.take 1
                else messages.errors
    [Event.logError (OutMsg.text "Failed to compile.\n"),
     Event.logError (OutMsg.text (String.intercalate "\n\n" errs))]
  else if messages.warnings.length ≠ 0 then
    [Event.logWarning (OutMsg.text "Compiled with warnings.\n"),
     Event.logWarning (OutMsg.text (String.intercalate "\n\n" messages.warnings)),
     Event.logWarning (OutMsg.text
       "\nSearch for the keywords to learn more about each warning."),
     Event.logWarning (OutMsg.text
       "To ignore, add // eslint-disable-next-line to the line before.\n")]
  else []

/-- Lines 393-460: one firing of the `done` hook handler.  `fmt` is the
external `formatWebpackMessages`; `isFirstCompile` is the value of the
closure variable when the handler fires.  Returns the emitted event
trace and the new value of `isFirstCompile` (line 429 sets it to
`false`). -/
def doneHandler (fmt : StatsData → Messages) (ctx : CompilerCtx)
    (isFirstCompile : Bool) (stats : StatsData) : List Event × Bool :=
  let messages := fmt (statsToJson stats)
  (preSection ctx
      ++ devSocketSection messages
      ++ [Event.logInfo (OutMsg.text " ")]
      ++ successSection messages
      ++ instrSection ctx isFirstCompile messages
      ++ [Event.onFinished]
      ++ tailSection messages,
   false)

/-- Repeated firings of the `done` handler, threading the
`isFirstCompile` closure variable; returns the trace of each firing.
Line 389 initialises the variable to `true`, so a whole run is
`runDone fmt ctx true statsList`. -/
def runDone (fmt : StatsData → Messages) (ctx : CompilerCtx) :
    Bool → List StatsData → List (List Event)
  | _, [] => []
  | b, s :: rest =>
    let r := doneHandler fmt ctx b s
    r.1 :: runDone fmt ctx r.2 rest

/-- The constant line that `printInstructions` always logs and that no
other `logInfo` call of the `done` handler can produce; its presence in
a trace marks that the instructions were printed. -/
def instructionsMarker : Event :=
  Event.logInfo (OutMsg.text "Note that the development build is not optimized.")

/-! ## scripts/generateChangelog.js -/

/-- The `stdio` option of a `spawn` call. -/
inductive StdioMode where
  | inheritStdio
  | pipe
deriving DecidableEq

/-- A `child_process.spawn` invocation: command, argument list, stdio
mode and environment. -/
structure SpawnCall where
  cmd : String
  args : List String
  stdio : StdioMode
  env : List (String × String)
deriving DecidableEq

/-- One observable effect of the changelog script. -/
inductive ScriptEvent where
  | consoleLog (s : String)
  | spawnChild (c : SpawnCall)
  | processExit (code : Int)
deriving DecidableEq

/-- scripts/generateChangelog.js lines 1-11.  `pathJoin` is Node's
`path.join` (kept abstract); `dirname` is the script's `__dirname`;
`processEnv` is `process.env` (`Object.assign({}, process.env)` passes a
copy of it); `childExitCode` is the status the child reports on its
`exit` event, which the handler forwards to `process.exit`. -/
def generateChangelog (pathJoin : String → String → String) (dirname : String)
    (processEnv : List (String × String)) (childExitCode : Int) : List ScriptEvent :=
  let lerna := pathJoin dirname "../node_modules/.bin/lerna"
  [ScriptEvent.consoleLog "generating changelog...",
   ScriptEvent.spawnChild
     { cmd := lerna
       args := ["version", "--conventional-commits"]
       stdio := StdioMode.inheritStdio
       env := processEnv },
   ScriptEvent.processExit childExitCode]

/-! ## Concrete fixtures used by witnesses and counterexamples -/

/-- A concrete formatter: the identity instance of the abstract
`formatWebpackMessages` parameter. -/
def fmtId : StatsData → Messages := fun sd => { errors := sd.errors, warnings := sd.warnings }

/-- A concrete non-interactive compiler context. -/
def ctx0 : CompilerCtx :=
  { appName := "App"
    urls := { localUrlForTerminal := JSValue.str "http://localhost:19006"
              lanUrlForTerminal := JSValue.undefined }
    nonInteractive := JSValue.bool true }

/-- A concrete interactive compiler context. -/
def ctxInteractive : CompilerCtx :=
  { appName := "App"
    urls := { localUrlForTerminal := JSValue.str "http://localhost:19006"
              lanUrlForTerminal := JSValue.undefined }
    nonInteractive := JSValue.undefined }

/-- Stats of a clean compile. -/
def sOK : StatsData := { errors := [], warnings := [] }

/-- Stats with a single error. -/
def sErr : StatsData := { errors := ["boom"], warnings := [] }

/-- Stats with two errors. -/
def sTwoErr : StatsData := { errors := ["e1", "e2"], warnings := [] }

/-- A concrete locations object whose `absolute` joins the project root
with the given path segments. -/
def loc0 : Locations :=
  { root := "/app"
    absolute := fun parts => String.intercalate "/" ("/app" :: parts.map jsToString) }

/-- A concrete instance of the abstract `overrideWithPropertyOrConfig`
helper: `false` disables (maps to itself, falsy), truthy values enable
the default configuration. -/
def owpc0 : JSValue → JSValue → JSValue := fun p d => if truthy p then d else p

/-! ## Helper lemmas about the trace sections of the done handler -/

theorem notMemAppend {α : Type} {a : α} {l₁ l₂ : List α}
    (h₁ : a ∉ l₁) (h₂ : a ∉ l₂) : a ∉ l₁ ++ l₂ := by
  intro h
  rcases List.mem_append.1 h with h | h
  · exact h₁ h
  · exact h₂ h

theorem preSection_no_exit (ctx : CompilerCtx) (code : Nat) :
    Event.processExit code ∉ preSection ctx := by
  unfold preSection; split <;> simp

theorem preSection_no_onFinished (ctx : CompilerCtx) :
    Event.onFinished ∉ preSection ctx := by
  unfold preSection; split <;> simp

theorem preSection_no_logError (ctx : CompilerCtx) (m : OutMsg) :
    Event.logError m ∉ preSection ctx := by
  unfold preSection; split <;> simp

theorem preSection_no_logWarning (ctx : CompilerCtx) (m : OutMsg) :
    Event.logWarning m ∉ preSection ctx := by
  unfold preSection; split <;> simp

theorem preSection_no_logInfo (ctx : CompilerCtx) (m : OutMsg) :
    Event.logInfo m ∉ preSection ctx := by
  unfold preSection; split <;> simp

theorem devSocketSection_no_exit (m : Messages) (code : Nat) :
    Event.processExit code ∉ devSocketSection m := by
  unfold devSocketSection
  split
  · simp
  · split <;> simp

theorem devSocketSection_no_onFinished (m : Messages) :
    Event.onFinished ∉ devSocketSection m := by
  unfold devSocketSection
  split
  · simp
  · split <;> simp

theorem devSocketSection_no_logInfo (m : Messages) (o : OutMsg) :
    Event.logInfo o ∉ devSocketSection m := by
  unfold devSocketSection
  split
  · simp
  · split <;> simp

theorem devSocketSection_no_logError_text (m : Messages) (s : String) :
    Event.logError (OutMsg.text s) ∉ devSocketSection m := by
  unfold devSocketSection
  split
  · simp
  · split <;> simp

theorem devSocketSection_no_logWarning_text (m : Messages) (s : String) :
    Event.logWarning (OutMsg.text s) ∉ devSocketSection m := by
  unfold devSocketSection
  split
  · simp
  · split <;> simp

theorem devSocketSection_of_errors (m : Messages) (h : m.errors ≠ []) :
    devSocketSection m = [Event.logError (OutMsg.list m.errors)] := by
  unfold devSocketSection
  have : m.errors.length > 0 := List.length_pos.2 h
  simp [this]

theorem successSection_no_exit (m : Messages) (code : Nat) :
    Event.processExit code ∉ successSection m := by
  unfold successSection; split <;> simp [printPreviewNotice]

theorem successSection_no_onFinished (m : Messages) :
    Event.onFinished ∉ successSection m := by
  unfold successSection; split <;> simp [printPreviewNotice]

theorem successSection_no_logError (m : Messages) (o : OutMsg) :
    Event.logError o ∉ successSection m := by
  unfold successSection; split <;> simp [printPreviewNotice]

theorem successSection_no_logWarning (m : Messages) (o : OutMsg) :
    Event.logWarning o ∉ successSection m := by
  unfold successSection; split <;> simp [printPreviewNotice]

theorem successSection_no_marker (m : Messages) :
    instructionsMarker ∉ successSection m := by
  unfold successSection; split <;> decide

theorem printInstructions_no_exit (a : String) (u : Urls) (code : Nat) :
    Event.processExit code ∉ printInstructions a u := by
  unfold printInstructions; split <;> simp

theorem printInstructions_no_onFinished (a : String) (u : Urls) :
    Event.onFinished ∉ printInstructions a u := by
  unfold printInstructions; split <;> simp

theorem printInstructions_no_logError (a : String) (u : Urls) (o : OutMsg) :
    Event.logError o ∉ printInstructions a u := by
  unfold printInstructions; split <;> simp

theorem printInstructions_no_logWarning (a : String) (u : Urls) (o : OutMsg) :
    Event.logWarning o ∉ printInstructions a u := by
  unfold printInstructions; split <;> simp

theorem printInstructions_marker_mem (a : String) (u : Urls) :
    instructionsMarker ∈ printInstructions a u := by
  unfold printInstructions instructionsMarker; split <;> simp

theorem instrSection_no_exit (ctx : CompilerCtx) (b : Bool) (m : Messages) (code : Nat) :
    Event.processExit code ∉ instrSection ctx b m := by
  unfold instrSection
  split
  · exact printInstructions_no_exit _ _ _
  · simp

theorem instrSection_no_onFinished (ctx : CompilerCtx) (b : Bool) (m : Messages) :
    Event.onFinished ∉ instrSection ctx b m := by
  unfold instrSection
  split
  · exact printInstructions_no_onFinished _ _
  · simp

theorem instrSection_no_logError (ctx : CompilerCtx) (b : Bool) (m : Messages) (o : OutMsg) :
    Event.logError o ∉ instrSection ctx b m := by
  unfold instrSection
  split
  · exact printInstructions_no_logError _ _ _
  · simp

theorem instrSection_no_logWarning (ctx : CompilerCtx) (b : Bool) (m : Messages) (o : OutMsg) :
    Event.logWarning o ∉ instrSection ctx b m := by
  unfold instrSection
  split
  · exact printInstructions_no_logWarning _ _ _
  · simp

theorem instrSection_nonInteractive_later (ctx : CompilerCtx) (m : Messages)
    (h : truthy ctx.nonInteractive) : instrSection ctx false m = [] := by
  unfold instrSection
  simp [h]

theorem instrSection_interactive_indep (ctx : CompilerCtx) (b b' : Bool) (m : Messages)
    (h : ¬ truthy ctx.nonInteractive) : instrSection ctx b m = instrSection ctx b' m := by
  unfold instrSection
  simp at h
  simp [h]

theorem tailSection_no_exit (m : Messages) (code : Nat) :
    Event.processExit code ∉ tailSection m := by
  unfold tailSection
  split
  · simp
  · split <;> simp

theorem tailSection_no_onFinished (m : Messages) :
    Event.onFinished ∉ tailSection m := by
  unfold tailSection
  split
  · simp
  · split <;> simp

theorem tailSection_no_logInfo (m : Messages) (o : OutMsg) :
    Event.logInfo o ∉ tailSection m := by
  unfold tailSection
  split
  · simp
  · split <;> simp

theorem tailSection_of_errors (m : Messages) (h : m.errors ≠ []) :
    tailSection m =
      [Event.logError (OutMsg.text "Failed to compile.\n"),
       Event.logError (OutMsg.text (String.intercalate "\n\n" (m.errors.take 1)))] := by
  unfold tailSection
  have hlen : m.errors.length ≠ 0 := by simpa using h
  have htrunc : (if m.errors.length > 1 then m.errors.take 1 else m.errors) =
      m.errors.take 1 := by
    rcases m.errors with _ | ⟨a, _ | ⟨c, rest⟩⟩ <;> simp
  simp [hlen, htrunc]

theorem doneHandler_trace (fmt : StatsData → Messages) (ctx : CompilerCtx)
    (b : Bool) (s : StatsData) :
    (doneHandler fmt ctx b s).1 =
      preSection ctx
        ++ devSocketSection (fmt (statsToJson s))
        ++ [Event.logInfo (OutMsg.text " ")]
        ++ successSection (fmt (statsToJson s))
        ++ instrSection ctx b (fmt (statsToJson s))
        ++ [Event.onFinished]
        ++ tailSection (fmt (statsToJson s)) := rfl

theorem doneHandler_snd (fmt : StatsData → Messages) (ctx : CompilerCtx)
    (b : Bool) (s : StatsData) : (doneHandler fmt ctx b s).2 = false := rfl

theorem exit_not_mem_doneHandler (fmt : StatsData → Messages) (ctx : CompilerCtx)
    (b : Bool) (s : StatsData) (code : Nat) :
    Event.processExit code ∉ (doneHandler fmt ctx b s).1 := by
  rw [doneHandler_trace]
  refine notMemAppend
    (notMemAppend
      (notMemAppend
        (notMemAppend
          (notMemAppend
            (notMemAppend (preSection_no_exit _ _) (devSocketSection_no_exit _ _))
            ?_)
          (successSection_no_exit _ _))
        (instrSection_no_exit _ _ _ _))
      ?_)
    (tailSection_no_exit _ _)
  · simp
  · simp

theorem devSocketSection_of_warnings (m : Messages) (he : m.errors = [])
    (hw : m.warnings ≠ []) :
    devSocketSection m = [Event.logWarning (OutMsg.list m.warnings)] := by
  unfold devSocketSection
  have h1 : ¬ m.errors.length > 0 := by simp [he]
  have h2 : m.warnings.length > 0 := List.length_pos.2 hw
  simp [h1, h2]

theorem generateSW_not_mem_reportPlugins (loc : Locations) (rcOpt : Option ReportConfig) :
    Plugin.generateSW ∉ reportPlugins loc rcOpt := by
  cases rcOpt <;> simp [reportPlugins]

theorem isReportPlugin_false_of_mem_middleware {owpc : JSValue → JSValue → JSValue}
    {env : Env} {web : WebConfig} {p : Plugin}
    (hp : p ∈ middlewarePlugins owpc env web) : isReportPlugin p = false := by
  unfold middlewarePlugins at hp
  rcases List.mem_append.1 hp with hp | hp
  · rcases List.mem_append.1 hp with hp | hp
    · simp at hp; subst hp; rfl
    · split at hp <;> (simp at hp; rw [hp.2]; rfl)
  · simp at hp; subst hp; rfl

theorem runDone_cons (fmt : StatsData → Messages) (ctx : CompilerCtx) (b : Bool)
    (s : StatsData) (rest : List StatsData) :
    runDone fmt ctx b (s :: rest) =
      (doneHandler fmt ctx b s).1 :: runDone fmt ctx false rest := rfl

theorem mem_runDone_false (fmt : StatsData → Messages) (ctx : CompilerCtx)
    (l : List StatsData) :
    ∀ t ∈ runDone fmt ctx false l, ∃ s, t = (doneHandler fmt ctx false s).1 := by
  induction l with
  | nil => intro t ht; simp [runDone] at ht
  | cons s rest ih =>
    intro t ht
    rw [runDone_cons] at ht
    rcases List.mem_cons.1 ht with h | h
    · exact ⟨s, h⟩
    · exact ih t h

theorem marker_not_mem_doneHandler_later (fmt : StatsData → Messages)
    (ctx : CompilerCtx) (s : StatsData) (h : truthy ctx.nonInteractive) :
    instructionsMarker ∉ (doneHandler fmt ctx false s).1 := by
  rw [doneHandler_trace]
  refine notMemAppend
    (notMemAppend
      (notMemAppend
        (notMemAppend
          (notMemAppend
            (notMemAppend (preSection_no_logInfo _ _) (devSocketSection_no_logInfo _ _))
            ?_)
          (successSection_no_marker _))
        ?_)
      ?_)
    (tailSection_no_logInfo _ _)
  · decide
  · rw [instrSection_nonInteractive_later _ _ h]; simp
  · decide

/-! ## Theorems -/

/-- C2: `getDevtool` returns `webConfig.devtool` whenever
`env.production` is truthy and `webConfig.devtool` is not `undefined`;
returns `"source-map"` when `env.production` is truthy and
`webConfig.devtool` is `undefined`; returns `"cheap-module-source-map"`
when `env.production` is falsy and `env.development` is truthy; and
returns `undefined` when both flags are falsy. -/
theorem c2_getDevtool (env : Env) (web : WebConfig) :
    (truthy env.production → web.devtool ≠ JSValue.undefined →
      getDevtool env web = web.devtool) ∧
    (truthy env.production → web.devtool = JSValue.undefined →
      getDevtool env web = JSValue.str "source-map") ∧
    (¬ truthy env.production → truthy env.development →
      getDevtool env web = JSValue.str "cheap-module-source-map") ∧
    (¬ truthy env.production → ¬ truthy env.development →
      getDevtool env web = JSValue.undefined) := by
  unfold getDevtool
  refine ⟨?_, ?_, ?_, ?_⟩ <;> intro h1 h2 <;> simp_all

/-- Witness for C2 at a concrete input: in production mode with
`devtool` explicitly set to `false`, that value is returned. -/
theorem c2_getDevtool_witness :
    getDevtool { production := JSValue.bool true, development := JSValue.undefined }
        { devtool := JSValue.bool false, serviceWorker := JSValue.undefined }
      = JSValue.bool false :=
  (c2_getDevtool
    { production := JSValue.bool true, development := JSValue.undefined }
    { devtool := JSValue.bool false, serviceWorker := JSValue.undefined }).1
    (by decide) (by decide)

/-- C1: if the `webpack(config)` constructor call throws, the startup
catch logs blank lines, `Failed to compile`, the thrown error's
`message` when truthy and otherwise the error value itself, and then
terminates the process with exit code 1; when the constructor succeeds
the catch does nothing and the compiler is returned.  (The `done` and
`invalid` handlers never exit the process — see the no-exit conjuncts —
so this catch is the only exit point of the wrapper.) -/
theorem c1_startup_catch (α : Type) (err : JSError) (c : α) :
    createWebpackCompilerStartup (Except.error err : Except JSError α) =
      ([Event.logError (OutMsg.text " "),
        Event.logError (OutMsg.text "Failed to compile"),
        Event.logError (OutMsg.text " "),
        Event.logError (OutMsg.value
          (if truthy err.message then err.message else err.asValue)),
        Event.logError (OutMsg.text " "),
        Event.processExit 1], none) ∧
    createWebpackCompilerStartup (Except.ok c : Except JSError α) = ([], some c) ∧
    (∀ fmt ctx b s code, Event.processExit code ∉ (doneHandler fmt ctx b s).1) ∧
    (∀ ctx code, Event.processExit code ∉ invalidHandler ctx) := by
  refine ⟨by simp [createWebpackCompilerStartup, jsOr], rfl, ?_, ?_⟩
  · intro fmt ctx b s code
    exact exit_not_mem_doneHandler fmt ctx b s code
  · intro ctx code
    unfold invalidHandler
    split <;> simp

/-- Witness for C1 at a concrete thrown error whose `message` is absent:
the logged payload is the error value itself and the process exits. -/
theorem c1_startup_catch_witness :
    createWebpackCompilerStartup
        (Except.error { message := JSValue.undefined, asValue := JSValue.str "oops" } :
          Except JSError Nat) =
      ([Event.logError (OutMsg.text " "),
        Event.logError (OutMsg.text "Failed to compile"),
        Event.logError (OutMsg.text " "),
        Event.logError (OutMsg.value (JSValue.str "oops")),
        Event.logError (OutMsg.text " "),
        Event.processExit 1], none) ∧
    Event.processExit 1 ∉ (doneHandler fmtId ctx0 true sErr).1 := by
  have h := c1_startup_catch Nat
    { message := JSValue.undefined, asValue := JSValue.str "oops" } 0
  exact ⟨h.1, h.2.2.1 fmtId ctx0 true sErr 1⟩

/-- C6: the changelog script logs its banner, spawns the lerna binary
resolved as `path.join(__dirname, "../node_modules/.bin/lerna")` with
exactly the arguments `["version", "--conventional-commits"]`, inherited
stdio and a copy of the process environment, and exits with the child's
exit status; moreover every spawn in the trace is that one. -/
theorem c6_generateChangelog (pathJoin : String → String → String) (dirname : String)
    (processEnv : List (String × String)) (childExitCode : Int) :
    generateChangelog pathJoin dirname processEnv childExitCode =
      [ScriptEvent.consoleLog "generating changelog...",
       ScriptEvent.spawnChild
         { cmd := pathJoin dirname "../node_modules/.bin/lerna"
           args := ["version", "--conventional-commits"]
           stdio := StdioMode.inheritStdio
           env := processEnv },
       ScriptEvent.processExit childExitCode] ∧
    (∀ c, ScriptEvent.spawnChild c ∈
        generateChangelog pathJoin dirname processEnv childExitCode →
      c.cmd = pathJoin dirname "../node_modules/.bin/lerna" ∧
      c.args = ["version", "--conventional-commits"] ∧
      c.stdio = StdioMode.inheritStdio ∧ c.env = processEnv) := by
  refine ⟨rfl, ?_⟩
  intro c hc
  simp [generateChangelog] at hc
  subst hc
  exact ⟨rfl, rfl, rfl, rfl⟩

/-- Witness for C6 at concrete inputs. -/
theorem c6_generateChangelog_witness :
    generateChangelog (fun a b => a ++ "/" ++ b) "/repo/scripts" [("PATH", "/bin")] 0 =
      [ScriptEvent.consoleLog "generating changelog...",
       ScriptEvent.spawnChild
         { cmd := "/repo/scripts/../node_modules/.bin/lerna"
           args := ["version", "--conventional-commits"]
           stdio := StdioMode.inheritStdio
           env := [("PATH", "/bin")] },
       ScriptEvent.processExit 0] :=
  (c6_generateChangelog (fun a b => a ++ "/" ++ b) "/repo/scripts"
    [("PATH", "/bin")] 0).1

/-- C3: `WorkboxPlugin.GenerateSW` is in the returned configuration's
plugin list iff `env.production` is truthy and
`overrideWithPropertyOrConfig(config.web.serviceWorker,
DEFAULT_SERVICE_WORKER)` is truthy; in development the plugin is never
included.  The helper lives outside the given sources and is kept
abstract; the only assumption is that it maps the literal `false`
(which the code passes when `env.production` is falsy) to a falsy
result, which is its disable contract. -/
theorem c3_serviceWorkerPlugin (owpc : JSValue → JSValue → JSValue) (loc : Locations)
    (env : Env) (web : WebConfig) (rcOpt : Option ReportConfig)
    (h : ¬ truthy (owpc (JSValue.bool false) DEFAULT_SERVICE_WORKER)) :
    Plugin.generateSW ∈ (webpackCommonExport owpc loc env web rcOpt).plugins ↔
      (truthy env.production ∧
        truthy (owpc web.serviceWorker DEFAULT_SERVICE_WORKER)) := by
  have hrep := generateSW_not_mem_reportPlugins loc rcOpt
  by_cases hp : truthy env.production
  · by_cases hsw : truthy (owpc web.serviceWorker DEFAULT_SERVICE_WORKER)
    · simp [webpackCommonExport, webpackPlugins, middlewarePlugins, hp, hsw, hrep]
    · simp [webpackCommonExport, webpackPlugins, middlewarePlugins, hp, hsw, hrep]
  · have h0 : (if truthy env.production then web.serviceWorker else JSValue.bool false)
        = JSValue.bool false := if_neg hp
    simp [webpackCommonExport, webpackPlugins, middlewarePlugins, h0, h, hp, hrep]

/-- Witness for C3 at concrete inputs: in production with
`serviceWorker` left `undefined`, inclusion matches the truthiness of
the abstract helper applied to `undefined` and the default. -/
theorem c3_serviceWorkerPlugin_witness :
    Plugin.generateSW ∈ (webpackCommonExport owpc0 loc0
        { production := JSValue.bool true, development := JSValue.undefined }
        { devtool := JSValue.undefined, serviceWorker := JSValue.undefined }
        none).plugins ↔
      (truthy (JSValue.bool true) ∧
        truthy (owpc0 JSValue.undefined DEFAULT_SERVICE_WORKER)) :=
  c3_serviceWorkerPlugin owpc0 loc0
    { production := JSValue.bool true, development := JSValue.undefined }
    { devtool := JSValue.undefined, serviceWorker := JSValue.undefined }
    none (by decide)

/-- C4 counterexample: with the default report configuration (whose
keys are all present), the `...reportConfig` spread overrides the
computed absolute filenames, so the `BundleAnalyzerPlugin` carries the
relative `stats.json`/`report.html` rather than paths resolved inside
the absolute report directory, contradicting the claim. -/
theorem c4_counterexample :
    Plugin.bundleAnalyzer (JSValue.str "stats.json") (JSValue.str "report.html")
        (JSValue.str "silent") ∈ reportPlugins loc0 (some DEFAULT_REPORT_CONFIG) ∧
    JSValue.str "stats.json" ≠
      JSValue.str (loc0.absolute [JSValue.str "web-report", JSValue.str "stats.json"]) := by
  constructor
  · decide
  · decide

/-- C4 (amended): the report plugins are included iff the report
configuration is truthy, and then they are exactly a
`CleanWebpackPlugin` on the absolute report directory (`reportConfig.path`
defaulting to `web-report`) followed by a `BundleAnalyzerPlugin`; the
analyzer's stats/report filenames resolve inside that directory only
when the configuration does not itself carry a
`statsFilename`/`reportFilename` key — a present key (as in the default
configuration) overrides the computed absolute path via the spread. -/
theorem c4_reportPlugins (owpc : JSValue → JSValue → JSValue) (loc : Locations)
    (env : Env) (web : WebConfig) (rcOpt : Option ReportConfig) :
    ((∃ p ∈ (webpackCommonExport owpc loc env web rcOpt).plugins,
        isReportPlugin p) ↔ rcOpt.isSome) ∧
    (∀ rc, rcOpt = some rc →
      reportPlugins loc rcOpt =
        [Plugin.cleanWebpack
           [loc.absolute [jsOr (jsField rc.path) (JSValue.str "web-report")]]
           loc.root (jsField rc.verbose),
         Plugin.bundleAnalyzer
           (match rc.statsFilename with
            | some v => v
            | none => JSValue.str (loc.absolute
                [jsOr (jsField rc.path) (JSValue.str "web-report"),
                 JSValue.str "stats.json"]))
           (match rc.reportFilename with
            | some v => v
            | none => JSValue.str (loc.absolute
                [jsOr (jsField rc.path) (JSValue.str "web-report"),
                 JSValue.str "report.html"]))
           (if truthy (jsField rc.verbose) then JSValue.str "info"
            else JSValue.str "silent")]) := by
  constructor
  · constructor
    · rintro ⟨p, hp, hrp⟩
      cases rcOpt with
      | some rc => rfl
      | none =>
        exfalso
        unfold webpackCommonExport webpackPlugins at hp
        rcases List.mem_append.1 hp with hp | hp
        · rcases List.mem_append.1 hp with hp | hp
          · rcases List.mem_append.1 hp with hp | hp
            · simp at hp
              rcases hp with hp | hp | hp <;> (subst hp; simp [isReportPlugin] at hrp)
            · rw [isReportPlugin_false_of_mem_middleware hp] at hrp
              simp at hrp
          · simp at hp
            rcases hp with hp | hp <;> (subst hp; simp [isReportPlugin] at hrp)
        · simp [reportPlugins] at hp
    · intro hsome
      cases rcOpt with
      | none => simp at hsome
      | some rc =>
        have hmem : ∃ p ∈ reportPlugins loc (some rc), isReportPlugin p = true := by
          unfold reportPlugins
          exact ⟨_, List.mem_cons_self _ _, rfl⟩
        rcases hmem with ⟨p, hp, hrp⟩
        exact ⟨p, by
          unfold webpackCommonExport webpackPlugins
          exact List.mem_append_right _ hp, hrp⟩
  · intro rc hrc
    subst hrc
    unfold reportPlugins
    cases hs : rc.statsFilename <;> cases hr : rc.reportFilename <;>
      simp [jsField, jsOr, truthy, hs, hr]

/-- Witness for C4 (amended) at the default report configuration: both
plugins appear, in order, with the overridden relative filenames. -/
theorem c4_reportPlugins_witness :
    reportPlugins loc0 (some DEFAULT_REPORT_CONFIG) =
      [Plugin.cleanWebpack ["/app/web-report"] "/app" (JSValue.bool false),
       Plugin.bundleAnalyzer (JSValue.str "stats.json") (JSValue.str "report.html")
         (JSValue.str "silent")] := by
  have h := (c4_reportPlugins owpc0 loc0
    { production := JSValue.bool true, development := JSValue.undefined }
    { devtool := JSValue.undefined, serviceWorker := JSValue.undefined }
    (some DEFAULT_REPORT_CONFIG)).2 DEFAULT_REPORT_CONFIG rfl
  exact h.trans (by decide)

/-- C5: on every `done` event the formatted errors (or, absent errors,
the formatted warnings) are printed via the devSocket callbacks, and the
handler never terminates the process: no `process.exit` event ever
appears in its trace, so after printing it simply returns. -/
theorem c5_doneHandler_prints_and_returns (fmt : StatsData → Messages)
    (ctx : CompilerCtx) (b : Bool) (s : StatsData) :
    (∀ code, Event.processExit code ∉ (doneHandler fmt ctx b s).1) ∧
    ((fmt (statsToJson s)).errors ≠ [] →
      Event.logError (OutMsg.list (fmt (statsToJson s)).errors) ∈
        (doneHandler fmt ctx b s).1) ∧
    ((fmt (statsToJson s)).errors = [] → (fmt (statsToJson s)).warnings ≠ [] →
      Event.logWarning (OutMsg.list (fmt (statsToJson s)).warnings) ∈
        (doneHandler fmt ctx b s).1) := by
  refine ⟨fun code => exit_not_mem_doneHandler fmt ctx b s code, ?_, ?_⟩
  · intro he
    rw [doneHandler_trace, devSocketSection_of_errors _ he]
    simp
  · intro he hw
    rw [doneHandler_trace, devSocketSection_of_warnings _ he hw]
    simp

/-- Witness for C5 at a concrete erroring compile. -/
theorem c5_doneHandler_witness :
    Event.processExit 1 ∉ (doneHandler fmtId ctx0 true sErr).1 ∧
    Event.logError (OutMsg.list ["boom"]) ∈ (doneHandler fmtId ctx0 true sErr).1 :=
  ⟨(c5_doneHandler_prints_and_returns fmtId ctx0 true sErr).1 1,
   (c5_doneHandler_prints_and_returns fmtId ctx0 true sErr).2.1 (by decide)⟩

/-- C7 counterexample: two firings of the `done` handler with identical
arguments (a clean compile, non-interactive mode) produce different
output, because the handler reads the `isFirstCompile` closure variable
that persists across firings — so its output is not computed from its
arguments alone. -/
theorem c7_counterexample :
    (doneHandler fmtId ctx0 true sOK).1 ≠ (doneHandler fmtId ctx0 false sOK).1 := by
  decide

/-- C7 (amended): the only mutable state shared across handler firings
is the `isFirstCompile` flag of `createWebpackCompiler`: every firing
resets it to `false`, and it influences the output only through the
non-interactive instruction printing — in interactive mode the output is
independent of it. -/
theorem c7_handler_state (fmt : StatsData → Messages) (ctx : CompilerCtx)
    (s : StatsData) (b b' : Bool) :
    ((doneHandler fmt ctx b s).2 = false) ∧
    (¬ truthy ctx.nonInteractive →
      (doneHandler fmt ctx b s).1 = (doneHandler fmt ctx b' s).1) := by
  refine ⟨rfl, ?_⟩
  intro h
  rw [doneHandler_trace, doneHandler_trace,
    instrSection_interactive_indep ctx b b' (fmt (statsToJson s)) h]

/-- Witness for C7 (amended) in a concrete interactive context. -/
theorem c7_handler_state_witness :
    (doneHandler fmtId ctxInteractive true sOK).2 = false ∧
    (doneHandler fmtId ctxInteractive true sOK).1 =
      (doneHandler fmtId ctxInteractive false sOK).1 :=
  ⟨(c7_handler_state fmtId ctxInteractive sOK true false).1,
   (c7_handler_state fmtId ctxInteractive sOK true false).2 (by decide)⟩

/-- C8 counterexample: with two formatted errors the handler prints the
full error list (both errors) through the devSocket callback before the
truncation, so more than the first error is printed; the truncated
summary then prints the first error only. -/
theorem c8_counterexample :
    Event.logError (OutMsg.list ["e1", "e2"]) ∈ (doneHandler fmtId ctx0 true sTwoErr).1 ∧
    Event.logError (OutMsg.text "e1") ∈ (doneHandler fmtId ctx0 true sTwoErr).1 := by
  constructor <;> decide

/-- C8 (amended): when the formatted error list is non-empty, the
devSocket callback first logs the full error list; the handler then ends
with `Failed to compile.` followed by only the first error (the list is
truncated to length 1 when longer), and no warning is ever printed. -/
theorem c8_errorPath (fmt : StatsData → Messages) (ctx : CompilerCtx) (b : Bool)
    (s : StatsData) (h : (fmt (statsToJson s)).errors ≠ []) :
    Event.logError (OutMsg.list (fmt (statsToJson s)).errors) ∈
      (doneHandler fmt ctx b s).1 ∧
    (∃ front, (doneHandler fmt ctx b s).1 = front ++
        [Event.logError (OutMsg.text "Failed to compile.\n"),
         Event.logError (OutMsg.text
           (String.intercalate "\n\n" ((fmt (statsToJson s)).errors.take 1)))]) ∧
    (∀ o : OutMsg, Event.logWarning o ∉ (doneHandler fmt ctx b s).1) := by
  refine ⟨?_, ?_, ?_⟩
  · rw [doneHandler_trace, devSocketSection_of_errors _ h]
    simp
  · exact ⟨_, by rw [doneHandler_trace, tailSection_of_errors _ h]⟩
  · intro o
    rw [doneHandler_trace, devSocketSection_of_errors _ h, tailSection_of_errors _ h]
    refine notMemAppend
      (notMemAppend
        (notMemAppend
          (notMemAppend
            (notMemAppend
              (notMemAppend (preSection_no_logWarning _ _) ?_)
              ?_)
            (successSection_no_logWarning _ _))
          (instrSection_no_logWarning _ _ _ _))
        ?_)
      ?_
    · simp
    · simp
    · simp
    · simp

/-- Witness for C8 (amended) at a concrete erroring compile. -/
theorem c8_errorPath_witness :
    Event.logError (OutMsg.list ["boom"]) ∈ (doneHandler fmtId ctx0 false sErr).1 ∧
    Event.logWarning (OutMsg.text "Compiled with warnings.\n") ∉
      (doneHandler fmtId ctx0 false sErr).1 :=
  ⟨(c8_errorPath fmtId ctx0 false sErr (by decide)).1,
   (c8_errorPath fmtId ctx0 false sErr (by decide)).2.2 _⟩

/-- C9 counterexample: on an erroring compile the devSocket error
notification is printed among the first two events of the trace, while
`onFinished` is not among them — so error text is printed before
`onFinished` is invoked, contradicting the claimed ordering. -/
theorem c9_counterexample :
    Event.logError (OutMsg.list ["boom"]) ∈ ((doneHandler fmtId ctx0 true sErr).1.take 2) ∧
    Event.onFinished ∉ ((doneHandler fmtId ctx0 true sErr).1.take 2) ∧
    Event.onFinished ∈ (doneHandler fmtId ctx0 true sErr).1 := by
  refine ⟨by decide, by decide, by decide⟩

/-- C9 (amended): `onFinished` is invoked exactly once per `done` event,
after the devSocket notification of the raw errors or warnings but
before the final formatted summary: neither `Failed to compile.` nor
`Compiled with warnings.` can occur before it. -/
theorem c9_onFinished_once (fmt : StatsData → Messages) (ctx : CompilerCtx)
    (b : Bool) (s : StatsData) :
    ((doneHandler fmt ctx b s).1.count Event.onFinished = 1) ∧
    (∃ front tail, (doneHandler fmt ctx b s).1 = front ++ Event.onFinished :: tail ∧
      Event.onFinished ∉ front ∧ Event.onFinished ∉ tail ∧
      Event.logError (OutMsg.text "Failed to compile.\n") ∉ front ∧
      Event.logWarning (OutMsg.text "Compiled with warnings.\n") ∉ front) := by
  constructor
  · rw [doneHandler_trace]
    simp only [List.count_append]
    rw [List.count_eq_zero.2 (preSection_no_onFinished ctx),
      List.count_eq_zero.2 (devSocketSection_no_onFinished _),
      List.count_eq_zero.2 (successSection_no_onFinished _),
      List.count_eq_zero.2 (instrSection_no_onFinished _ _ _),
      List.count_eq_zero.2 (tailSection_no_onFinished _)]
    decide
  · refine ⟨preSection ctx ++ devSocketSection (fmt (statsToJson s))
        ++ [Event.logInfo (OutMsg.text " ")] ++ successSection (fmt (statsToJson s))
        ++ instrSection ctx b (fmt (statsToJson s)),
      tailSection (fmt (statsToJson s)), ?_, ?_, tailSection_no_onFinished _, ?_, ?_⟩
    · rw [doneHandler_trace]
      simp [List.append_assoc]
    · refine notMemAppend
        (notMemAppend
          (notMemAppend
            (notMemAppend (preSection_no_onFinished _) (devSocketSection_no_onFinished _))
            ?_)
          (successSection_no_onFinished _))
        (instrSection_no_onFinished _ _ _)
      simp
    · refine notMemAppend
        (notMemAppend
          (notMemAppend
            (notMemAppend (preSection_no_logError _ _)
              (devSocketSection_no_logError_text _ _))
            ?_)
          (successSection_no_logError _ _))
        (instrSection_no_logError _ _ _ _)
      simp
    · refine notMemAppend
        (notMemAppend
          (notMemAppend
            (notMemAppend (preSection_no_logWarning _ _)
              (devSocketSection_no_logWarning_text _ _))
            ?_)
          (successSection_no_logWarning _ _))
        (instrSection_no_logWarning _ _ _ _)
      simp

/-- Witness for C9 (amended) at a concrete input. -/
theorem c9_onFinished_once_witness :
    (doneHandler fmtId ctx0 true sErr).1.count Event.onFinished = 1 :=
  (c9_onFinished_once fmtId ctx0 true sErr).1

/-- C10: in non-interactive mode the browser-URL instructions are
printed during at most the first `done` event: every handler run resets
`isFirstCompile` to `false`, the marker line that `printInstructions`
always logs appears in every instruction printout, and no trace after
the first firing contains it. -/
theorem c10_nonInteractive_instructions (fmt : StatsData → Messages)
    (ctx : CompilerCtx) (l : List StatsData) (h : truthy ctx.nonInteractive) :
    (∀ b s, (doneHandler fmt ctx b s).2 = false) ∧
    (∀ a u, instructionsMarker ∈ printInstructions a u) ∧
    (∀ t ∈ (runDone fmt ctx true l).drop 1, instructionsMarker ∉ t) := by
  refine ⟨fun b s => rfl, fun a u => printInstructions_marker_mem a u, ?_⟩
  intro t ht
  cases l with
  | nil => simp [runDone] at ht
  | cons s rest =>
    rw [runDone_cons] at ht
    simp only [List.drop_succ_cons, List.drop_zero] at ht
    obtain ⟨s2, rfl⟩ := mem_runDone_false fmt ctx rest t ht
    exact marker_not_mem_doneHandler_later fmt ctx s2 h

/-- Witness for C10: a concrete non-interactive run of two clean
compiles, whose second trace lacks the instruction marker. -/
theorem c10_nonInteractive_instructions_witness :
    truthy ctx0.nonInteractive = true ∧
    instructionsMarker ∉ (doneHandler fmtId ctx0 false sOK).1 :=
  ⟨by decide,
   (c10_nonInteractive_instructions fmtId ctx0 [sOK, sOK] (by decide)).2.2
     ((doneHandler fmtId ctx0 false sOK).1) (by decide)⟩

end Spec2Proof
